import Mathlib

/-!
Verification of the admission-controlled rasterization and dual-track fusion
core of the mcc-amplify-ai backend, as a shallow embedding in Lean 4.

The embedded code comes from:
* `backend/service/fusion/pipeline.py` (`SpatialAlignmentEngine`,
  `HybridFusionPipeline`),
* `backend/service/security/secure_renderer.py` (`SecurePDFRenderer`),
* `backend/service/pdf_processing/processors.py` (`TiledRenderer`,
  `StreamingProcessor`),
* `backend/service/core/orchestrator.py` (`PipelineOrchestrator.run_pipeline`).

Python floats are modelled by exact rationals (ℚ), Python ints by ℤ/ℕ,
dictionaries by structures, exceptions by `Except`/explicit outcome sums.
Mutation of the fusion pipeline's aligner is modelled by explicit state
passing (the pipeline value is an argument and a result of `fuse`).
-/

namespace MccAmplify

/-- A bounding box `[x1, y1, x2, y2]`, as used throughout the Python code. -/
structure BBox where
  x1 : ℚ
  y1 : ℚ
  x2 : ℚ
  y2 : ℚ
deriving DecidableEq, Repr

/-- Scale every coordinate of a bbox by the factor `k` (componentwise). -/
def BBox.scale (k : ℚ) (b : BBox) : BBox :=
  ⟨k * b.x1, k * b.y1, k * b.x2, k * b.y2⟩

/-- Translate a bbox by `(dx, dy)` (added to both corners). -/
def BBox.translate (dx dy : ℚ) (b : BBox) : BBox :=
  ⟨b.x1 + dx, b.y1 + dy, b.x2 + dx, b.y2 + dy⟩

/-! ## Spatial Alignment Engine (fusion/pipeline.py, lines 9–30) -/

/-- State of `SpatialAlignmentEngine`: a DPI and the derived `scale_factor`. -/
structure SpatialAlignmentEngine where
  dpi : ℤ
  scale_factor : ℚ
deriving DecidableEq, Repr

/-- Constructor `__init__`: `dpi = 72`, `scale_factor = 1.0`. -/
def SpatialAlignmentEngine.init : SpatialAlignmentEngine :=
  { dpi := 72, scale_factor := 1 }

/-- Method `set_dpi`: store `dpi` and recompute `scale_factor = dpi / 72.0`. -/
def SpatialAlignmentEngine.set_dpi (_e : SpatialAlignmentEngine) (dpi : ℤ) :
    SpatialAlignmentEngine :=
  { dpi := dpi, scale_factor := (dpi : ℚ) / 72 }

/-- Method `pixel_to_point`: divide every coordinate by `scale_factor`. -/
def SpatialAlignmentEngine.pixel_to_point (e : SpatialAlignmentEngine)
    (pixel_coords : List ℚ) : List ℚ :=
  pixel_coords.map (fun c => c / e.scale_factor)

/-- Method `point_to_pixel`: multiply every coordinate by `scale_factor`. -/
def SpatialAlignmentEngine.point_to_pixel (e : SpatialAlignmentEngine)
    (point_coords : List ℚ) : List ℚ :=
  point_coords.map (fun c => c * e.scale_factor)

/-- Method `bbox_pixel_to_point`: divide all four bbox coordinates by
`scale_factor`. -/
def SpatialAlignmentEngine.bbox_pixel_to_point (e : SpatialAlignmentEngine)
    (bbox : BBox) : BBox :=
  ⟨bbox.x1 / e.scale_factor, bbox.y1 / e.scale_factor,
   bbox.x2 / e.scale_factor, bbox.y2 / e.scale_factor⟩

/-! ## Detections and fused elements (data model of fusion/pipeline.py) -/

/-- An ML detection dict `{type, confidence, bbox}` (pixel or point space). -/
structure Detection where
  type : String
  confidence : ℚ
  bbox : BBox
deriving DecidableEq, Repr

/-- The provenance tag attached by the refine step. -/
inductive GeometrySource where
  | ml_approximate
  | vector_snapped
deriving DecidableEq, Repr

/-- A fused element: a detection dict after `_refine_with_vectors` added
the `geometry_source` key. -/
structure FusedElement where
  type : String
  confidence : ℚ
  bbox : BBox
  geometry_source : GeometrySource
deriving DecidableEq, Repr

/-- A simplified vector path as built by `VectorProcessor.extract`:
`type` is the draw kind (`"s"` stroke, `"f"` fill, …), `rect` its
bounding rectangle in document points. -/
structure VectorPath where
  type : String
  rect : BBox
deriving DecidableEq, Repr

/-- The `vector_data` dict as produced by `VectorProcessor.extract`. -/
structure VectorData where
  paths : List VectorPath
deriving DecidableEq, Repr

/-- The metadata dict passed to `fuse`; `dpi` is read with
`metadata.get("dpi", 72)`, so it is optional with default 72. -/
structure FusionMetadata where
  dpi : Option ℤ
deriving DecidableEq, Repr

/-- Reading the DPI: `metadata.get("dpi", 72)`. -/
def FusionMetadata.getDpi (m : FusionMetadata) : ℤ :=
  m.dpi.getD 72

/-! ## Hybrid Fusion Pipeline (fusion/pipeline.py, lines 33–94) -/

/-- State of `HybridFusionPipeline`: it owns a mutable
`SpatialAlignmentEngine`. -/
structure HybridFusionPipeline where
  aligner : SpatialAlignmentEngine
deriving DecidableEq, Repr

/-- Constructor `__init__`: a fresh aligner. -/
def HybridFusionPipeline.init : HybridFusionPipeline :=
  { aligner := SpatialAlignmentEngine.init }

/-- Method `_normalize_detections` (lines 62–73): convert every detection's bbox
from pixels to PDF points, building fresh dicts with the same `type` and
`confidence`. -/
def HybridFusionPipeline.normalize_detections (p : HybridFusionPipeline)
    (detections : List Detection) : List Detection :=
  detections.map (fun det =>
    { type := det.type
      confidence := det.confidence
      bbox := p.aligner.bbox_pixel_to_point det.bbox })

/-- Method `_refine_with_vectors` (lines 75–94): the MVP placeholder loops over the
detections, sets `det["geometry_source"] = "ml_approximate"` on each one and
appends it to the result; `vector_data` is accepted but never consulted. -/
def HybridFusionPipeline.refine_with_vectors (_p : HybridFusionPipeline)
    (detections : List Detection) (_vector_data : VectorData) :
    List FusedElement :=
  detections.map (fun det =>
    { type := det.type
      confidence := det.confidence
      bbox := det.bbox
      geometry_source := GeometrySource.ml_approximate })

/-- The result dict of `fuse`. -/
structure FuseResult where
  elements : List FusedElement
  raw_vectors : VectorData
  metadata : FusionMetadata
deriving DecidableEq, Repr

/-- Method `fuse` (lines 39–60): read `dpi` from metadata (default 72), mutate the
aligner via `set_dpi`, normalize the detections to point space, refine them
against the vectors, and return the result dict.  The mutation of
`self.aligner` is modelled by returning the updated pipeline state. -/
def HybridFusionPipeline.fuse (p : HybridFusionPipeline)
    (vector_data : VectorData) (ml_detections : List Detection)
    (metadata : FusionMetadata) : FuseResult × HybridFusionPipeline :=
  let dpi := metadata.getDpi
  let p' : HybridFusionPipeline := { p with aligner := p.aligner.set_dpi dpi }
  let normalized_detections := p'.normalize_detections ml_detections
  let refined_elements := p'.refine_with_vectors normalized_detections vector_data
  (⟨refined_elements, vector_data, metadata⟩, p')

/-- Spec-side predicate for claim C1 ("overlaps a vector stroke segment
within tolerance"): the two rectangles, the second enlarged by `tol`,
intersect. -/
def rectOverlapsWithin (tol : ℚ) (b r : BBox) : Prop :=
  r.x1 ≤ b.x2 + tol ∧ b.x1 ≤ r.x2 + tol ∧ r.y1 ≤ b.y2 + tol ∧ b.y1 ≤ r.y2 + tol

instance (tol : ℚ) (b r : BBox) : Decidable (rectOverlapsWithin tol b r) := by
  unfold rectOverlapsWithin; infer_instance

/-- Claim C1 as stated by the spec, with the matching tolerance as a
parameter: whenever an emitted element's (normalized) bounding box overlaps
some stroke vector path within the tolerance, that element must carry
`geometry_source = vector_snapped`. -/
def claimC1 (tol : ℚ) : Prop :=
  ∀ (p : HybridFusionPipeline) (vd : VectorData) (dets : List Detection)
    (md : FusionMetadata) (i : ℕ)
    (hi : i < ((p.fuse vd dets md).1.elements).length),
    (∃ v ∈ vd.paths, v.type = "s" ∧
      rectOverlapsWithin tol (((p.fuse vd dets md).1.elements).get ⟨i, hi⟩).bbox v.rect) →
    (((p.fuse vd dets md).1.elements).get ⟨i, hi⟩).geometry_source =
      GeometrySource.vector_snapped

/-! ## Secure renderer / Admission Controller (security/secure_renderer.py) -/

namespace SecurePDFRenderer

/-- Constant `MAX_PIXEL_COUNT = 25_000_000`. -/
def MAX_PIXEL_COUNT : ℚ := 25000000

/-- Constant `MAX_MEMORY_MB = 512`. -/
def MAX_MEMORY_MB : ℚ := 512

/-- Constant `MAX_FILE_SIZE_MB = 100`. -/
def MAX_FILE_SIZE_MB : ℚ := 100

/-- Constant `ABSOLUTE_MIN_DPI = 72`. -/
def ABSOLUTE_MIN_DPI : ℤ := 72

end SecurePDFRenderer

/-- The first page of an opened document: its rect width/height in
document points (`page.rect.width`, `page.rect.height`). -/
structure Page where
  width : ℚ
  height : ℚ
deriving DecidableEq, Repr

namespace SecurePDFRenderer

/-- The candidate DPI ladder tried by `_calculate_forced_dpi`. -/
def dpiCandidates : List ℤ := [300, 200, 150, 100, 72]

/-- Pixel count of `page` rendered at `dpi`:
`(width_inches * dpi) * (height_inches * dpi)` with `width_inches = width/72`. -/
def pixelsAt (page : Page) (dpi : ℤ) : ℚ :=
  (page.width / 72 * dpi) * (page.height / 72 * dpi)

/-- The candidate-loop memory estimate: `pixels * 3 / (1024*1024)` (RGB). -/
def loopMemoryAt (page : Page) (dpi : ℤ) : ℚ :=
  pixelsAt page dpi * 3 / (1024 * 1024)

/-- A candidate DPI satisfies both ceilings of the candidate loop. -/
def admissible (page : Page) (dpi : ℤ) : Prop :=
  pixelsAt page dpi ≤ MAX_PIXEL_COUNT ∧ loopMemoryAt page dpi ≤ MAX_MEMORY_MB

instance (page : Page) (dpi : ℤ) : Decidable (admissible page dpi) := by
  unfold admissible; infer_instance

/-- Method `_calculate_forced_dpi` (lines 81–96): first candidate in the descending
ladder whose pixel count and RGB memory both fit; `None` if none does. -/
def calculate_forced_dpi (page : Page) : Option ℤ :=
  dpiCandidates.find? (fun candidate_dpi => decide (admissible page candidate_dpi))

/-- Method `_estimate_memory` (lines 98–108): RGB bytes with a 50% overhead factor,
in MB. -/
def estimate_memory (page : Page) (dpi : ℤ) : ℚ :=
  ((page.width / 72 * dpi) * (page.height / 72 * dpi) * 3) * (3 / 2) / (1024 * 1024)

/-- Outcome of `fitz.open(pdf_path)` / `doc[0]` inside the timeout block:
either the document opened and page 0 was read (`opened (some page)`),
the document opened but reading page 0 raised (`opened none`),
the timeout fired (`timeout`), or `fitz.open` itself raised (`openFail`). -/
inductive OpenOutcome where
  | opened (firstPage : Option Page)
  | timeout
  | openFail
deriving DecidableEq, Repr

/-- The environment `safe_render` observes for one `pdf_path`. -/
structure PdfFile where
  path_exists : Bool
  size_mb : ℚ
  open_result : OpenOutcome
deriving DecidableEq, Repr

/-- The exception classes `safe_render` can raise. -/
inductive RenderError where
  | FileNotFoundError
  | SecurityError
deriving DecidableEq, Repr

/-- Rendering strategy chosen by the Admission Controller
(the `method`/`dpi` entries of the returned dict). -/
inductive RenderMethod where
  | direct
  | mandatory_tiling
deriving DecidableEq, Repr

/-- The successful result dict of `safe_render` (the `page` entry is the
document handle's first page). -/
structure RenderDecision where
  method : RenderMethod
  page : Page
  dpi : ℤ
deriving DecidableEq, Repr

/-- Method `safe_render` (lines 34–79), with the document-handle state made
explicit: the second component is `true` iff `fitz.open` succeeded and the
document is still open when `safe_render` returns or raises.  Layers in
source order: existence check, size check (strict `>`), open under timeout,
forced-DPI calculation, pre-render memory check. -/
def safe_render (f : PdfFile) : Except RenderError RenderDecision × Bool :=
  if f.path_exists = false then
    (Except.error RenderError.FileNotFoundError, false)
  else if MAX_FILE_SIZE_MB < f.size_mb then
    (Except.error RenderError.SecurityError, false)
  else
    match f.open_result with
    | OpenOutcome.timeout => (Except.error RenderError.SecurityError, false)
    | OpenOutcome.openFail => (Except.error RenderError.SecurityError, false)
    | OpenOutcome.opened none => (Except.error RenderError.SecurityError, true)
    | OpenOutcome.opened (some page) =>
      match calculate_forced_dpi page with
      | none =>
        (Except.ok ⟨RenderMethod.mandatory_tiling, page, 72⟩, true)
      | some safe_dpi =>
        if MAX_MEMORY_MB < estimate_memory page safe_dpi then
          (Except.ok ⟨RenderMethod.mandatory_tiling, page, safe_dpi⟩, true)
        else
          (Except.ok ⟨RenderMethod.direct, page, safe_dpi⟩, true)

/-- Whether `safe_render` gets far enough to open the document handle
(file exists, size within limit, `fitz.open` succeeds). -/
def document_opened (f : PdfFile) : Bool :=
  f.path_exists && decide (f.size_mb ≤ MAX_FILE_SIZE_MB) &&
    (match f.open_result with
     | OpenOutcome.opened _ => true
     | _ => false)

end SecurePDFRenderer

/-! ## Pipeline orchestrator (core/orchestrator.py, lines 42–108) -/

namespace PipelineOrchestrator

open SecurePDFRenderer

/-- Errors `run_pipeline` can propagate: a failure of the security stage, or
an exception raised by one of the later stages (processing, geometry
generation, export). -/
inductive PipelineError where
  | security (e : RenderError)
  | processingError
  | geometryError
  | exportError
deriving DecidableEq, Repr

/-- Everything the environment decides for one `run_pipeline` call: the file
the security layer sees, and whether each later stage call succeeds.
Fusion is pure and cannot fail, so it has no flag. -/
structure JobInput where
  file : PdfFile
  processing_ok : Bool
  geometry_ok : Bool
  export_ok : Bool
deriving DecidableEq, Repr

/-- State of the run when control returns to the caller. -/
structure JobExit where
  result : Except PipelineError RenderDecision
  handle_open : Bool
  monitor_stopped : Bool
deriving Repr

/-- Method `run_pipeline` (lines 42–108): start the monitor, run the stages in
order inside `try`, re-raise any exception, and in `finally` stop the
monitor.  The document-handle cleanup in the `finally` block is commented
out in the source (`# secure_context["page"].parent.close()`), so the handle
state at exit is exactly what `safe_render` left it. -/
def run_pipeline (inp : JobInput) : JobExit :=
  let sr := safe_render inp.file
  match sr.1 with
  | Except.error e =>
    ⟨Except.error (PipelineError.security e), sr.2, true⟩
  | Except.ok ctx =>
    if inp.processing_ok = false then
      ⟨Except.error PipelineError.processingError, sr.2, true⟩
    else if inp.geometry_ok = false then
      ⟨Except.error PipelineError.geometryError, sr.2, true⟩
    else if inp.export_ok = false then
      ⟨Except.error PipelineError.exportError, sr.2, true⟩
    else
      ⟨Except.ok ctx, sr.2, true⟩

/-- Claim C2 as stated: on every exit path the document handle opened by the
Admission Controller has been released before control returns. -/
def claimC2 : Prop :=
  ∀ inp : JobInput, (run_pipeline inp).handle_open = false

end PipelineOrchestrator

/-! ## Tiled renderer and streaming processor (pdf_processing/processors.py) -/

/-- State of `TiledRenderer`: tile edge length and overlap in pixels.  Python ints,
embedded in ℚ (all arithmetic on them in the source is numeric). -/
structure TiledRenderer where
  tile_size : ℚ
  overlap : ℚ
deriving DecidableEq, Repr

/-- The default construction `TiledRenderer()`:
`tile_size_px=2000`, `overlap_px=128` (the only instantiation used). -/
def TiledRenderer.mkDefault : TiledRenderer := ⟨2000, 128⟩

/-- One yielded tile: its pixel rectangle `[x0, x1] × [y0, y1]` and its
grid position `(tx, ty)`. -/
structure TileDescriptor where
  x0 : ℚ
  y0 : ℚ
  x1 : ℚ
  y1 : ℚ
  grid_pos : ℕ × ℕ
deriving DecidableEq, Repr

/-- Method `render_tiled` (processors.py lines 62–101) as the finite list of tiles
the generator yields, in yield order (`ty` outer, `tx` inner):
grid counts are `ceil(extent / (tile_size − overlap))`, each tile spans
`[x0, min(x0 + tile_size, width_px)]` with `x0 = tx * (tile_size − overlap)`
(pixmap rendering and point-space clipping are not modelled; the claims are
about the pixel rectangles). -/
def TiledRenderer.render_tiled (r : TiledRenderer) (page : Page)
    (target_dpi : ℤ) : List TileDescriptor :=
  let width_px : ℚ := page.width / 72 * target_dpi
  let height_px : ℚ := page.height / 72 * target_dpi
  let tiles_x : ℕ := (Int.ceil (width_px / (r.tile_size - r.overlap))).toNat
  let tiles_y : ℕ := (Int.ceil (height_px / (r.tile_size - r.overlap))).toNat
  (List.range tiles_y).flatMap (fun (ty : ℕ) =>
    (List.range tiles_x).map (fun (tx : ℕ) =>
      let x0 : ℚ := (tx : ℚ) * (r.tile_size - r.overlap)
      let y0 : ℚ := (ty : ℚ) * (r.tile_size - r.overlap)
      ⟨x0, y0, min (x0 + r.tile_size) width_px, min (y0 + r.tile_size) height_px,
        (tx, ty)⟩))

namespace StreamingProcessor

/-- The per-detection coordinate adjustment of the `mandatory_tiling` branch
of `StreamingProcessor.process` (lines 154–165): add the tile's pixel-space
origin offset `grid_pos * (tile_size − overlap)` to both corners. -/
def translate_detection (tiler : TiledRenderer) (grid_pos : ℕ × ℕ)
    (det : Detection) : Detection :=
  let tile_x : ℚ := grid_pos.1 * (tiler.tile_size - tiler.overlap)
  let tile_y : ℚ := grid_pos.2 * (tiler.tile_size - tiler.overlap)
  { det with bbox := det.bbox.translate tile_x tile_y }

/-- The detections the external model returned for one tile. -/
structure TileDetections where
  grid_pos : ℕ × ℕ
  dets : List Detection
deriving DecidableEq, Repr

/-- The accumulation loop of the `mandatory_tiling` branch (lines 136–166):
translate every tile's detections to global pixel space and append them in
tile order. -/
def process_tiled (tiler : TiledRenderer) (tiles : List TileDetections) :
    List Detection :=
  tiles.flatMap (fun t => t.dets.map (translate_detection tiler t.grid_pos))

end StreamingProcessor

/-! ## Theorems -/

/-- C6: for every DPI > 0 set on the Spatial Alignment Engine and every
coordinate vector `x`, `point_to_pixel (pixel_to_point x) = x` (exactly,
over exact rational arithmetic). -/
theorem spatial_alignment_roundtrip (dpi : ℤ) (h : 0 < dpi) (x : List ℚ) :
    (SpatialAlignmentEngine.init.set_dpi dpi).point_to_pixel
      ((SpatialAlignmentEngine.init.set_dpi dpi).pixel_to_point x) = x := by
  have h0 : (0 : ℚ) < (dpi : ℚ) := by exact_mod_cast h
  have hs : ((dpi : ℚ) / 72) ≠ 0 := div_ne_zero (ne_of_gt h0) (by norm_num)
  simp only [SpatialAlignmentEngine.point_to_pixel,
    SpatialAlignmentEngine.pixel_to_point, SpatialAlignmentEngine.set_dpi,
    List.map_map]
  have hfun : ∀ c : ℚ, c / ((dpi : ℚ) / 72) * ((dpi : ℚ) / 72) = c :=
    fun c => div_mul_cancel₀ c hs
  simp only [Function.comp_def, hfun]
  exact List.map_id x

/-- Witness for C6 at DPI 150 and coordinates `[3, 7]`. -/
theorem spatial_alignment_roundtrip_witness :
    (SpatialAlignmentEngine.init.set_dpi 150).point_to_pixel
      ((SpatialAlignmentEngine.init.set_dpi 150).pixel_to_point [3, 7]) = [3, 7] :=
  spatial_alignment_roundtrip 150 (by norm_num) [3, 7]

/-- C9: `fuse` is a deterministic function of `(vectors, detections,
metadata)`: fusing the same tuple twice in a row (threading the mutated
aligner state) yields an identical result, and the result does not depend
on the pipeline state the call starts from. -/
theorem fuse_deterministic (p q : HybridFusionPipeline) (vd : VectorData)
    (dets : List Detection) (md : FusionMetadata) :
    ((p.fuse vd dets md).2.fuse vd dets md).1 = (p.fuse vd dets md).1 ∧
      (p.fuse vd dets md).1 = (q.fuse vd dets md).1 :=
  ⟨rfl, rfl⟩

/-- Scenario C input: one tile at grid position `(2, 1)` whose detector
returned a single local bbox `[10, 10, 50, 50]`. -/
def scenarioC_tiles : List StreamingProcessor.TileDetections :=
  [⟨(2, 1), [⟨"door", 1/2, ⟨10, 10, 50, 50⟩⟩]⟩]

/-- C4: every detection from tile `(grid_x, grid_y)` gets
`grid_x * (tile_size − overlap)` added to both x coordinates and
`grid_y * (tile_size − overlap)` added to both y coordinates (with the
default tile size 2000 and overlap 128, the offset unit is 1872); in
particular local bbox `[10,10,50,50]` in tile `(2,1)` becomes
`[3754,1882,3794,1922]`. -/
theorem tiled_detection_translation :
    (∀ (gx gy : ℕ) (det : Detection),
      (StreamingProcessor.translate_detection TiledRenderer.mkDefault (gx, gy) det).bbox =
        ⟨det.bbox.x1 + gx * 1872, det.bbox.y1 + gy * 1872,
         det.bbox.x2 + gx * 1872, det.bbox.y2 + gy * 1872⟩) ∧
    StreamingProcessor.process_tiled TiledRenderer.mkDefault scenarioC_tiles =
      [⟨"door", 1/2, ⟨3754, 1882, 3794, 1922⟩⟩] := by
  constructor
  · intro gx gy det
    simp only [StreamingProcessor.translate_detection, BBox.translate,
      TiledRenderer.mkDefault]
    norm_num
  · simp only [StreamingProcessor.process_tiled,
      StreamingProcessor.translate_detection, BBox.translate,
      TiledRenderer.mkDefault, scenarioC_tiles, List.flatMap_cons,
      List.map_cons, List.map_nil, List.flatMap_nil, List.append_nil]
    norm_num

/-- A vector data set with a single stroke path of rect `[0,0,10,10]`. -/
def exVectorData : VectorData := ⟨[⟨"s", ⟨0, 0, 10, 10⟩⟩]⟩

/-- One ML detection whose pixel bbox coincides with the stroke's rect. -/
def exDetections : List Detection := [⟨"wall", 9/10, ⟨0, 0, 10, 10⟩⟩]

/-- Metadata carrying `dpi = 72` (so normalization is the identity). -/
def exMetadata : FusionMetadata := ⟨some 72⟩

/-- C1 counterexample: the refine step never snaps.  At DPI 72 a detection
whose bbox exactly coincides with a stroke vector's rect (distance 0, hence
within tolerance 0) is still emitted with
`geometry_source = ml_approximate`, so the claim fails as stated. -/
theorem refine_never_snaps : ¬ claimC1 0 := by
  have hev : (HybridFusionPipeline.init.fuse exVectorData exDetections exMetadata).1.elements =
      [⟨"wall", 9/10, ⟨0, 0, 10, 10⟩, GeometrySource.ml_approximate⟩] := by
    simp only [HybridFusionPipeline.fuse, HybridFusionPipeline.normalize_detections,
      HybridFusionPipeline.refine_with_vectors, SpatialAlignmentEngine.set_dpi,
      SpatialAlignmentEngine.bbox_pixel_to_point, exDetections, exVectorData,
      exMetadata, FusionMetadata.getDpi, Option.getD_some, List.map_cons, List.map_nil]
    norm_num
  intro h
  have hlen : 0 <
      ((HybridFusionPipeline.init.fuse exVectorData exDetections exMetadata).1.elements).length := by
    rw [hev]; simp
  have h2 := h HybridFusionPipeline.init exVectorData exDetections exMetadata 0 hlen
    ⟨⟨"s", ⟨0, 0, 10, 10⟩⟩, by simp [exVectorData], rfl, by
      norm_num [rectOverlapsWithin, hev, List.get,
        SpatialAlignmentEngine.set_dpi, SpatialAlignmentEngine.bbox_pixel_to_point,
        FusionMetadata.getDpi, exMetadata]⟩
  simp only [hev, List.get] at h2
  exact absurd h2 (by simp)

/-- C1 amended: `fuse` emits every detection with
`geometry_source = ml_approximate` and with its (normalized) ML bounding
box, regardless of any nearby vector stroke — the refine step of the source
is a placeholder that never snaps to vector geometry. -/
theorem fuse_always_ml_approximate (p : HybridFusionPipeline) (vd : VectorData)
    (dets : List Detection) (md : FusionMetadata) :
    ((p.fuse vd dets md).1.elements).map (fun e => e.geometry_source) =
        List.replicate dets.length GeometrySource.ml_approximate ∧
      ((p.fuse vd dets md).1.elements).map (fun e => e.bbox) =
        dets.map (fun det =>
          (SpatialAlignmentEngine.init.set_dpi md.getDpi).bbox_pixel_to_point det.bbox) := by
  constructor
  · simp only [HybridFusionPipeline.fuse, HybridFusionPipeline.refine_with_vectors,
      HybridFusionPipeline.normalize_detections, List.map_map, Function.comp_def]
    induction dets with
    | nil => rfl
    | cons d t ih => simp [List.replicate_succ, ih]
  · simp only [HybridFusionPipeline.fuse, HybridFusionPipeline.refine_with_vectors,
      HybridFusionPipeline.normalize_detections, SpatialAlignmentEngine.set_dpi,
      SpatialAlignmentEngine.bbox_pixel_to_point, List.map_map, Function.comp_def]

/-- C10: `fuse` emits exactly one output element per input detection, in
input order, preserving `type` and `confidence`, with the bbox scaled
componentwise by `72/dpi`; nothing is dropped, merged or deduplicated, and
the input list is left untouched (the embedding works on fresh records, as
`_normalize_detections` builds fresh dicts in the source). -/
theorem fuse_emits_one_element_per_detection (p : HybridFusionPipeline)
    (vd : VectorData) (dets : List Detection) (md : FusionMetadata)
    (_h : 0 < md.getDpi) :
    (p.fuse vd dets md).1.elements =
      dets.map (fun det =>
        ⟨det.type, det.confidence, BBox.scale (72 / (md.getDpi : ℚ)) det.bbox,
          GeometrySource.ml_approximate⟩) := by
  simp only [HybridFusionPipeline.fuse, HybridFusionPipeline.refine_with_vectors,
    HybridFusionPipeline.normalize_detections, SpatialAlignmentEngine.set_dpi,
    SpatialAlignmentEngine.bbox_pixel_to_point, BBox.scale, List.map_map,
    Function.comp_def]
  refine List.map_congr_left (fun det _ => ?_)
  have hco : ∀ c : ℚ, c / ((md.getDpi : ℚ) / 72) = 72 / (md.getDpi : ℚ) * c := by
    intro c
    rw [div_div_eq_mul_div, div_mul_eq_mul_div, mul_comm]
  simp [hco]

/-- Witness input for C10: one door detection at DPI 144. -/
def exDetections2 : List Detection := [⟨"door", 1/2, ⟨144, 144, 216, 288⟩⟩]

/-- Witness for C10 at DPI 144. -/
theorem fuse_emits_one_element_per_detection_witness :
    (HybridFusionPipeline.init.fuse ⟨[]⟩ exDetections2 ⟨some 144⟩).1.elements =
      exDetections2.map (fun det =>
        ⟨det.type, det.confidence,
          BBox.scale (72 / ((FusionMetadata.mk (some 144)).getDpi : ℚ)) det.bbox,
          GeometrySource.ml_approximate⟩) :=
  fuse_emits_one_element_per_detection HybridFusionPipeline.init ⟨[]⟩ exDetections2
    ⟨some 144⟩ (by decide)

namespace SecurePDFRenderer

/-- C8: `safe_render` raises `FileNotFoundError` for a missing file;
`SecurityError` for an oversize file (decided before any open attempt: the
result is the same whatever the open outcome would have been, and the
handle is never opened), for an open/parse timeout, and for a corrupt or
unopenable document — and exactly these classes for these conditions. -/
theorem safe_render_error_classes (f : PdfFile) :
    (f.path_exists = false →
      safe_render f = (Except.error RenderError.FileNotFoundError, false)) ∧
    (f.path_exists = true → MAX_FILE_SIZE_MB < f.size_mb →
      ∀ o : OpenOutcome, safe_render { f with open_result := o } =
        (Except.error RenderError.SecurityError, false)) ∧
    (f.path_exists = true → f.size_mb ≤ MAX_FILE_SIZE_MB →
      f.open_result = OpenOutcome.timeout →
      safe_render f = (Except.error RenderError.SecurityError, false)) ∧
    (f.path_exists = true → f.size_mb ≤ MAX_FILE_SIZE_MB →
      f.open_result = OpenOutcome.openFail →
      safe_render f = (Except.error RenderError.SecurityError, false)) := by
  refine ⟨fun h1 => ?_, fun h1 h2 o => ?_, fun h1 h2 h3 => ?_, fun h1 h2 h3 => ?_⟩
  · simp [safe_render, h1]
  · simp [safe_render, h1, h2]
  · simp [safe_render, h1, not_lt.mpr h2, h3]
  · simp [safe_render, h1, not_lt.mpr h2, h3]

/-- A missing input file. -/
def fileMissing : PdfFile := ⟨false, 1, OpenOutcome.openFail⟩

/-- Scenario A: a 150MB file against the 100MB limit. -/
def fileOversize : PdfFile := ⟨true, 150, OpenOutcome.openFail⟩

/-- A file whose open/parse step times out. -/
def fileTimeout : PdfFile := ⟨true, 1, OpenOutcome.timeout⟩

/-- A corrupt file: `fitz.open` raises. -/
def fileCorrupt : PdfFile := ⟨true, 1, OpenOutcome.openFail⟩

/-- Witness for C8: each failure condition at a concrete file. -/
theorem safe_render_error_classes_witness :
    safe_render fileMissing = (Except.error RenderError.FileNotFoundError, false) ∧
    safe_render { fileOversize with open_result := OpenOutcome.opened none } =
      (Except.error RenderError.SecurityError, false) ∧
    safe_render fileTimeout = (Except.error RenderError.SecurityError, false) ∧
    safe_render fileCorrupt = (Except.error RenderError.SecurityError, false) :=
  ⟨(safe_render_error_classes fileMissing).1 rfl,
   (safe_render_error_classes fileOversize).2.1 rfl
     (by norm_num [fileOversize, MAX_FILE_SIZE_MB]) (OpenOutcome.opened none),
   (safe_render_error_classes fileTimeout).2.2.1 rfl
     (by norm_num [fileTimeout, MAX_FILE_SIZE_MB]) rfl,
   (safe_render_error_classes fileCorrupt).2.2.2 rfl
     (by norm_num [fileCorrupt, MAX_FILE_SIZE_MB]) rfl⟩

/-- C5: when no candidate DPI in the ladder (72 included) satisfies both
the pixel-count ceiling and the memory ceiling, `safe_render` returns
`mandatory_tiling` at the DPI floor 72. -/
theorem mandatory_tiling_at_floor (f : PdfFile) (page : Page)
    (hex : f.path_exists = true) (hsz : f.size_mb ≤ MAX_FILE_SIZE_MB)
    (hop : f.open_result = OpenOutcome.opened (some page))
    (hno : ∀ c ∈ dpiCandidates, ¬ admissible page c) :
    (safe_render f).1 =
      Except.ok ⟨RenderMethod.mandatory_tiling, page, 72⟩ := by
  have hfind : calculate_forced_dpi page = none := by
    unfold calculate_forced_dpi
    rw [List.find?_eq_none]
    intro c hc
    simp only [decide_eq_true_eq]
    exact hno c hc
  simp [safe_render, hex, not_lt.mpr hsz, hop, hfind]

/-- A page of 100000 × 100000 points (≈ 1389 × 1389 inches). -/
def pageHuge : Page := ⟨100000, 100000⟩

/-- A well-formed small file whose only page is `pageHuge`. -/
def fileHuge : PdfFile := ⟨true, 1, OpenOutcome.opened (some pageHuge)⟩

/-- Witness for C5: the huge page fails both ceilings at every candidate. -/
theorem mandatory_tiling_at_floor_witness :
    (safe_render fileHuge).1 =
      Except.ok ⟨RenderMethod.mandatory_tiling, pageHuge, 72⟩ :=
  mandatory_tiling_at_floor fileHuge pageHuge rfl
    (by norm_num [fileHuge, MAX_FILE_SIZE_MB]) rfl
    (by
      intro c hc
      simp only [dpiCandidates, List.mem_cons, List.not_mem_nil, or_false] at hc
      rcases hc with rfl | rfl | rfl | rfl | rfl <;>
        norm_num [admissible, pixelsAt, loopMemoryAt, pageHuge,
          MAX_PIXEL_COUNT, MAX_MEMORY_MB])

/-- The document handle is open when `safe_render` returns (or raises) iff
the run got far enough to open it: the function contains no close call. -/
theorem safe_render_handle_state (f : PdfFile) :
    (safe_render f).2 = document_opened f := by
  unfold safe_render document_opened
  cases hpe : f.path_exists with
  | false => simp
  | true =>
    by_cases hsz : MAX_FILE_SIZE_MB < f.size_mb
    · rw [decide_eq_false (not_le.mpr hsz)]
      simp [hsz]
    · rw [decide_eq_true (not_lt.mp hsz)]
      rw [if_neg (by simp), if_neg hsz]
      cases ho : f.open_result with
      | opened op =>
        cases op with
        | none => simp
        | some page =>
          cases hcd : calculate_forced_dpi page with
          | none => simp [hcd]
          | some d =>
            simp only [hcd]
            split <;> rfl
      | timeout => simp
      | openFail => simp

end SecurePDFRenderer

namespace PipelineOrchestrator

open SecurePDFRenderer

/-- Lemma: `run_pipeline` returns with the document handle in exactly the state
`safe_render` left it: no stage and no `finally` block closes it. -/
theorem run_pipeline_handle_eq (inp : JobInput) :
    (run_pipeline inp).handle_open = (safe_render inp.file).2 := by
  simp only [run_pipeline]
  cases h : (safe_render inp.file).1 with
  | error e => rfl
  | ok ctx => split_ifs <;> rfl

/-- A well-formed input: the file exists, is 1MB, opens to a 100×100pt
page, and every downstream stage succeeds. -/
def fileSmall : PdfFile := ⟨true, 1, OpenOutcome.opened (some ⟨100, 100⟩)⟩

/-- A pipeline run on `fileSmall` in which every stage succeeds. -/
def jobOk : JobInput := ⟨fileSmall, true, true, true⟩

/-- C2 counterexample: on a fully successful run the document handle opened
by the Admission Controller is still open when `run_pipeline` returns (the
cleanup in the `finally` block is commented out in the source), so the
claim that every exit path releases it is false. -/
theorem pipeline_leaves_handle_open : ¬ claimC2 := by
  intro h
  have h2 := h jobOk
  have h3 : (run_pipeline jobOk).handle_open = true := by
    rw [run_pipeline_handle_eq, safe_render_handle_state]
    norm_num [document_opened, jobOk, fileSmall, MAX_FILE_SIZE_MB]
  exact Bool.noConfusion (h2.symm.trans h3)

/-- C2 amended: no exit path of `run_pipeline` closes the document handle:
whenever the Admission Controller opened the document (file present, size
within limit, open succeeded), the handle is still open when control
returns to the caller — on success and on every propagated error alike. -/
theorem pipeline_keeps_handle_open (inp : JobInput)
    (h : document_opened inp.file = true) :
    (run_pipeline inp).handle_open = true := by
  rw [run_pipeline_handle_eq, safe_render_handle_state]
  exact h

/-- A run of `jobOk` with a failing export stage: the error propagates and
the handle is still open. -/
def jobExportFails : JobInput := ⟨fileSmall, true, true, false⟩

/-- Witness for the amended C2 on a run whose export stage raises. -/
theorem pipeline_keeps_handle_open_witness :
    (run_pipeline jobExportFails).handle_open = true :=
  pipeline_keeps_handle_open jobExportFails
    (by norm_num [document_opened, jobExportFails, fileSmall, MAX_FILE_SIZE_MB])

end PipelineOrchestrator

namespace SecurePDFRenderer

/-- Claim C3 as stated: for every page whose pixel count at the lowest
candidate DPI (72) is under the memory ceiling, `safe_render` chooses
`direct` at the highest ladder candidate satisfying both ceilings. -/
def claimC3 : Prop :=
  ∀ (f : PdfFile) (page : Page),
    f.path_exists = true → f.size_mb ≤ MAX_FILE_SIZE_MB →
    f.open_result = OpenOutcome.opened (some page) →
    loopMemoryAt page 72 ≤ MAX_MEMORY_MB →
    ∃ d, (safe_render f).1 = Except.ok ⟨RenderMethod.direct, page, d⟩ ∧
      d ∈ dpiCandidates ∧ admissible page d ∧
      ∀ c ∈ dpiCandidates, admissible page c → c ≤ d

/-- A 6000 × 5000 point page: at 72 DPI it is 30M pixels — within the
memory ceiling (≈ 85.8MB ≤ 512MB) but above the 25M pixel-count ceiling. -/
def pageWide : Page := ⟨6000, 5000⟩

/-- A well-formed small file whose only page is `pageWide`. -/
def fileWide : PdfFile := ⟨true, 1, OpenOutcome.opened (some pageWide)⟩

/-- C3 counterexample: `pageWide` satisfies the claim's memory-only
hypothesis at the DPI floor, yet no ladder candidate passes the pixel-count
ceiling, so `safe_render` returns `mandatory_tiling` — not `direct`. -/
theorem direct_requires_pixel_ceiling : ¬ claimC3 := by
  intro h
  obtain ⟨d, hd, -, -, -⟩ := h fileWide pageWide rfl
    (by norm_num [fileWide, MAX_FILE_SIZE_MB]) rfl
    (by norm_num [loopMemoryAt, pixelsAt, pageWide, MAX_MEMORY_MB])
  have hfind : calculate_forced_dpi pageWide = none := by
    unfold calculate_forced_dpi
    rw [List.find?_eq_none]
    intro c hc
    simp only [dpiCandidates, List.mem_cons, List.not_mem_nil, or_false] at hc
    simp only [decide_eq_true_eq]
    rcases hc with rfl | rfl | rfl | rfl | rfl <;>
      norm_num [admissible, pixelsAt, loopMemoryAt, pageWide,
        MAX_PIXEL_COUNT, MAX_MEMORY_MB]
  have hsr : (safe_render fileWide).1 =
      Except.ok ⟨RenderMethod.mandatory_tiling, pageWide, 72⟩ := by
    norm_num [safe_render, fileWide, MAX_FILE_SIZE_MB, hfind]
  rw [hsr] at hd
  simp at hd

/-- `_calculate_forced_dpi` returns the first — hence, the ladder being
descending, the highest — candidate satisfying both ceilings, whenever any
candidate does. -/
theorem forced_dpi_first_admissible (page : Page)
    (hsome : ∃ c ∈ dpiCandidates, admissible page c) :
    ∃ d, calculate_forced_dpi page = some d ∧ d ∈ dpiCandidates ∧
      admissible page d ∧ ∀ c ∈ dpiCandidates, admissible page c → c ≤ d := by
  by_cases h300 : admissible page 300
  · refine ⟨300, ?_, by simp [dpiCandidates], h300, ?_⟩
    · unfold calculate_forced_dpi dpiCandidates
      simp only [List.find?, decide_eq_true h300]
    · intro c hc _
      simp only [dpiCandidates, List.mem_cons, List.not_mem_nil, or_false] at hc
      rcases hc with rfl | rfl | rfl | rfl | rfl <;> norm_num
  by_cases h200 : admissible page 200
  · refine ⟨200, ?_, by simp [dpiCandidates], h200, ?_⟩
    · unfold calculate_forced_dpi dpiCandidates
      simp only [List.find?, decide_eq_false h300, decide_eq_true h200]
    · intro c hc hcadm
      simp only [dpiCandidates, List.mem_cons, List.not_mem_nil, or_false] at hc
      rcases hc with rfl | rfl | rfl | rfl | rfl
      · exact absurd hcadm h300
      all_goals norm_num
  by_cases h150 : admissible page 150
  · refine ⟨150, ?_, by simp [dpiCandidates], h150, ?_⟩
    · unfold calculate_forced_dpi dpiCandidates
      simp only [List.find?, decide_eq_false h300, decide_eq_false h200,
        decide_eq_true h150]
    · intro c hc hcadm
      simp only [dpiCandidates, List.mem_cons, List.not_mem_nil, or_false] at hc
      rcases hc with rfl | rfl | rfl | rfl | rfl
      · exact absurd hcadm h300
      · exact absurd hcadm h200
      all_goals norm_num
  by_cases h100 : admissible page 100
  · refine ⟨100, ?_, by simp [dpiCandidates], h100, ?_⟩
    · unfold calculate_forced_dpi dpiCandidates
      simp only [List.find?, decide_eq_false h300, decide_eq_false h200,
        decide_eq_false h150, decide_eq_true h100]
    · intro c hc hcadm
      simp only [dpiCandidates, List.mem_cons, List.not_mem_nil, or_false] at hc
      rcases hc with rfl | rfl | rfl | rfl | rfl
      · exact absurd hcadm h300
      · exact absurd hcadm h200
      · exact absurd hcadm h150
      all_goals norm_num
  by_cases h72 : admissible page 72
  · refine ⟨72, ?_, by simp [dpiCandidates], h72, ?_⟩
    · unfold calculate_forced_dpi dpiCandidates
      simp only [List.find?, decide_eq_false h300, decide_eq_false h200,
        decide_eq_false h150, decide_eq_false h100, decide_eq_true h72]
    · intro c hc hcadm
      simp only [dpiCandidates, List.mem_cons, List.not_mem_nil, or_false] at hc
      rcases hc with rfl | rfl | rfl | rfl | rfl
      · exact absurd hcadm h300
      · exact absurd hcadm h200
      · exact absurd hcadm h150
      · exact absurd hcadm h100
      · norm_num
  · exfalso
    obtain ⟨c, hc, hcadm⟩ := hsome
    simp only [dpiCandidates, List.mem_cons, List.not_mem_nil, or_false] at hc
    rcases hc with rfl | rfl | rfl | rfl | rfl
    · exact h300 hcadm
    · exact h200 hcadm
    · exact h150 hcadm
    · exact h100 hcadm
    · exact h72 hcadm

/-- C3 amended: for every page for which some ladder candidate satisfies
both the pixel-count ceiling and the memory ceiling, `safe_render` returns
`direct` with the highest such candidate.  (The stricter layer-5 estimate
`pixels * 4.5 / 2^20` cannot exceed 512MB once `pixels ≤ 25M`, so the
downgrade branch never fires for an admissible candidate.) -/
theorem direct_at_highest_admissible_dpi (f : PdfFile) (page : Page)
    (hex : f.path_exists = true) (hsz : f.size_mb ≤ MAX_FILE_SIZE_MB)
    (hop : f.open_result = OpenOutcome.opened (some page))
    (hsome : ∃ c ∈ dpiCandidates, admissible page c) :
    ∃ d, (safe_render f).1 = Except.ok ⟨RenderMethod.direct, page, d⟩ ∧
      d ∈ dpiCandidates ∧ admissible page d ∧
      ∀ c ∈ dpiCandidates, admissible page c → c ≤ d := by
  obtain ⟨d, hfind, hmem, hadm, hmax⟩ := forced_dpi_first_admissible page hsome
  have hest : ¬ (MAX_MEMORY_MB < estimate_memory page d) := by
    have hP : pixelsAt page d ≤ 25000000 := by
      simpa [MAX_PIXEL_COUNT] using hadm.1
    have heq : estimate_memory page d = pixelsAt page d * 9 / 2097152 := by
      unfold estimate_memory pixelsAt; ring
    intro hlt
    rw [heq] at hlt
    simp only [MAX_MEMORY_MB] at hlt
    linarith
  refine ⟨d, ?_, hmem, hadm, hmax⟩
  simp [safe_render, hex, not_lt.mpr hsz, hop, hfind, hest]

/-- A US-Letter page, 612 × 792 points (8.5 × 11 inches). -/
def pageLetter : Page := ⟨612, 792⟩

/-- A well-formed small file whose only page is `pageLetter`. -/
def fileLetter : PdfFile := ⟨true, 1, OpenOutcome.opened (some pageLetter)⟩

/-- Witness for the amended C3: the letter page admits DPI 300 (8.4M pixels),
so `safe_render` picks `direct` at the highest admissible candidate. -/
theorem direct_at_highest_admissible_dpi_witness :
    ∃ d, (safe_render fileLetter).1 =
        Except.ok ⟨RenderMethod.direct, pageLetter, d⟩ ∧
      d ∈ dpiCandidates ∧ admissible pageLetter d ∧
      ∀ c ∈ dpiCandidates, admissible pageLetter c → c ≤ d :=
  direct_at_highest_admissible_dpi fileLetter pageLetter rfl
    (by norm_num [fileLetter, MAX_FILE_SIZE_MB]) rfl
    ⟨300, by simp [dpiCandidates],
      by norm_num [admissible, pixelsAt, loopMemoryAt, pageLetter,
        MAX_PIXEL_COUNT, MAX_MEMORY_MB]⟩

end SecurePDFRenderer

/-- One-dimensional covering: for a grid of `ceil(W / step)` tiles of size
`size ≥ step` starting at multiples of `step` and clipped to `W`, every
point of `[0, W]` lies in some tile's interval. -/
theorem cover_segment (step size W p : ℚ) (hstep : 0 < step)
    (hsize : step ≤ size) (hW : 0 < W) (hp0 : 0 ≤ p) (hpW : p ≤ W) :
    ∃ k : ℕ, k < (Int.ceil (W / step)).toNat ∧
      (k : ℚ) * step ≤ p ∧ p ≤ min ((k : ℚ) * step + size) W := by
  have hWs : 0 < W / step := div_pos hW hstep
  have hceil_pos : 0 < Int.ceil (W / step) := Int.ceil_pos.mpr hWs
  set n : ℕ := (Int.ceil (W / step)).toNat with hn
  have hn1 : 1 ≤ n := by omega
  have hzn : ((n : ℕ) : ℤ) = Int.ceil (W / step) := by
    rw [hn]; exact Int.toNat_of_nonneg (le_of_lt hceil_pos)
  have h2 : W / step ≤ (n : ℚ) := by
    have h1 := Int.le_ceil (W / step)
    rw [← hzn] at h1
    exact_mod_cast h1
  have hWn : W ≤ (n : ℚ) * step := by
    rw [div_le_iff₀ hstep] at h2
    exact h2
  set k0 : ℕ := Nat.floor (p / step) with hk0
  have h3 : (k0 : ℚ) ≤ p / step := Nat.floor_le (div_nonneg hp0 (le_of_lt hstep))
  by_cases hlt : k0 < n
  · refine ⟨k0, hlt, ?_, le_min ?_ hpW⟩
    · calc (k0 : ℚ) * step ≤ (p / step) * step :=
            mul_le_mul_of_nonneg_right h3 (le_of_lt hstep)
        _ = p := div_mul_cancel₀ p (ne_of_gt hstep)
    · have h4 : p / step < (k0 : ℚ) + 1 := Nat.lt_floor_add_one _
      rw [div_lt_iff₀ hstep] at h4
      nlinarith
  · have hge : (n : ℚ) ≤ (k0 : ℚ) := by exact_mod_cast le_of_not_lt hlt
    have h6 : (n : ℚ) * step ≤ p := by
      calc (n : ℚ) * step ≤ (p / step) * step :=
            mul_le_mul_of_nonneg_right (hge.trans h3) (le_of_lt hstep)
        _ = p := div_mul_cancel₀ p (ne_of_gt hstep)
    have hcast : ((n - 1 : ℕ) : ℚ) = (n : ℚ) - 1 := by
      push_cast [Nat.cast_sub hn1]
      ring
    refine ⟨n - 1, by omega, ?_, le_min ?_ hpW⟩
    · rw [hcast]; nlinarith
    · rw [hcast]; nlinarith

/-- C7: for every page size and every positive target DPI, the pixel
rectangles of the tiles produced by `render_tiled` (default tile size 2000,
overlap 128) cover the full page pixel rectangle
`[0, width_px] × [0, height_px]` with no gaps. -/
theorem tiles_cover_page (page : Page) (dpi : ℤ) (hw : 0 < page.width)
    (hh : 0 < page.height) (hdpi : 0 < dpi) (p q : ℚ) (hp0 : 0 ≤ p)
    (hpW : p ≤ page.width / 72 * dpi) (hq0 : 0 ≤ q)
    (hqH : q ≤ page.height / 72 * dpi) :
    ∃ t ∈ TiledRenderer.mkDefault.render_tiled page dpi,
      t.x0 ≤ p ∧ p ≤ t.x1 ∧ t.y0 ≤ q ∧ q ≤ t.y1 := by
  have hdq : (0 : ℚ) < (dpi : ℚ) := by exact_mod_cast hdpi
  have hW : 0 < page.width / 72 * (dpi : ℚ) :=
    mul_pos (div_pos hw (by norm_num)) hdq
  have hH : 0 < page.height / 72 * (dpi : ℚ) :=
    mul_pos (div_pos hh (by norm_num)) hdq
  obtain ⟨kx, hkx, hx0, hx1⟩ := cover_segment
    (TiledRenderer.mkDefault.tile_size - TiledRenderer.mkDefault.overlap)
    TiledRenderer.mkDefault.tile_size (page.width / 72 * dpi) p
    (by norm_num [TiledRenderer.mkDefault]) (by norm_num [TiledRenderer.mkDefault])
    hW hp0 hpW
  obtain ⟨ky, hky, hy0, hy1⟩ := cover_segment
    (TiledRenderer.mkDefault.tile_size - TiledRenderer.mkDefault.overlap)
    TiledRenderer.mkDefault.tile_size (page.height / 72 * dpi) q
    (by norm_num [TiledRenderer.mkDefault]) (by norm_num [TiledRenderer.mkDefault])
    hH hq0 hqH
  exact ⟨_, List.mem_flatMap.mpr ⟨ky, List.mem_range.mpr hky,
      List.mem_map.mpr ⟨kx, List.mem_range.mpr hkx, rfl⟩⟩,
    hx0, hx1, hy0, hy1⟩

/-- Witness for C7: a 1in × 1in page at 72 DPI; the point (10, 20) is
covered by some tile. -/
theorem tiles_cover_page_witness :
    ∃ t ∈ TiledRenderer.mkDefault.render_tiled ⟨72, 72⟩ 72,
      t.x0 ≤ 10 ∧ (10 : ℚ) ≤ t.x1 ∧ t.y0 ≤ 20 ∧ (20 : ℚ) ≤ t.y1 :=
  tiles_cover_page ⟨72, 72⟩ 72 (by norm_num) (by norm_num) (by norm_num)
    10 20 (by norm_num) (by norm_num) (by norm_num) (by norm_num)

end MccAmplify
